import Mathlib

/-!
Verification of the pose-alignment scoring engine of the HACKVYUHA yoga
application.  The TypeScript sources are shallowly embedded: JavaScript
numbers are modelled as real numbers (rationals where no transcendental
function occurs), optional / missing values as `Option`, a thrown
exception as `none`, and the JavaScript `NaN` produced by `0/0` as a
distinguished `none` outcome where it can occur.  Module-level mutable
state (the keypoint smoothing history) is passed explicitly.
-/

set_option maxHeartbeats 1000000

open Real

/-- A detector keypoint: `{name?: string, x: number, y: number, score?: number}`
from `@tensorflow-models/pose-detection`. -/
structure Keypoint where
  name : Option String
  x : ℝ
  y : ℝ
  score : Option ℝ

noncomputable instance : Inhabited Keypoint := ⟨⟨none, 0, 0, none⟩⟩

/-- Substring test on character lists: JavaScript `String.prototype.includes`. -/
def substrList : List Char → List Char → Bool
  | needle, [] => needle.isEmpty
  | needle, c :: rest => needle.isPrefixOf (c :: rest) || substrList needle rest

/-- JavaScript `hay.includes(needle)`. -/
def jsIncludes (hay needle : String) : Bool :=
  substrList needle.data hay.data

/-- JavaScript `Math.atan2`, split over the standard quadrant cases. -/
noncomputable def atan2 (y x : ℝ) : ℝ :=
  if 0 < x then Real.arctan (y / x)
  else if x < 0 then
    if 0 ≤ y then Real.arctan (y / x) + Real.pi else Real.arctan (y / x) - Real.pi
  else
    if 0 < y then Real.pi / 2 else if y < 0 then -(Real.pi / 2) else 0

namespace RefImages

/-- Angle at vertex `b` (src/data/referenceImages.ts, `calculateAngle`):
difference of `atan2` arguments, folded to `[0,180]`. -/
noncomputable def calculateAngle (a b c : Keypoint) : ℝ :=
  let radians := atan2 (c.y - b.y) (c.x - b.x) - atan2 (a.y - b.y) (a.x - b.x)
  let angle := |radians * 180 / Real.pi|
  if 180 < angle then 360 - angle else angle

/-- Tolerance scorer of referenceImages.ts (`calculateAngleAccuracy`):
full credit inside the band, clamped Gaussian falloff outside. -/
noncomputable def calculateAngleAccuracy (actual target tolerance : ℝ) : ℝ :=
  let diff := |actual - target|
  if diff ≤ tolerance then 1
  else max 0.1 (Real.exp (-0.3 * ((diff - tolerance) / tolerance) ^ 2))

/-- Does the keypoint name contain the substring `shoulder` (`kp.name?.includes('shoulder')`)? -/
def hasShoulderName (kp : Keypoint) : Bool :=
  match kp.name with
  | some n => jsIncludes n "shoulder"
  | none => false

/-- Does the keypoint name contain the substring `hip`? -/
def hasHipName (kp : Keypoint) : Bool :=
  match kp.name with
  | some n => jsIncludes n "hip"
  | none => false

/-- Fallback keypoint used to model in-bounds indexing after a length guard. -/
noncomputable def dummyKp : Keypoint := ⟨none, 0, 0, none⟩

/-- Keypoint normalization of referenceImages.ts.  If fewer than two
shoulder-named or fewer than two hip-named keypoints are present, the
input passes through unchanged.  Otherwise every coordinate is divided by
`bodySize`, the distance between the first two shoulder keypoints; the
source performs this division even when `bodySize` is zero (JavaScript
then yields non-finite coordinates; Lean's total division yields 0 —
either way the output differs from the input). -/
noncomputable def normalizeKeypoints (keypoints : List Keypoint) : List Keypoint :=
  let shoulders := keypoints.filter hasShoulderName
  let hips := keypoints.filter hasHipName
  if shoulders.length < 2 ∨ hips.length < 2 then keypoints
  else
    let s0 := shoulders.getD 0 dummyKp
    let s1 := shoulders.getD 1 dummyKp
    let h0 := hips.getD 0 dummyKp
    let h1 := hips.getD 1 dummyKp
    let centerX := (s0.x + s1.x + h0.x + h1.x) / 4
    let centerY := (s0.y + s1.y + h0.y + h1.y) / 4
    let bodySize := Real.sqrt ((s1.x - s0.x) ^ 2 + (s1.y - s0.y) ^ 2)
    keypoints.map fun kp =>
      { kp with x := (kp.x - centerX) / bodySize, y := (kp.y - centerY) / bodySize }

end RefImages

namespace PoseDet

/-- Angle between three possibly-missing points
(src/utils/poseDetection.ts, `calculateAngle`): a missing point yields
the number 0, not a distinct sentinel. -/
noncomputable def calculateAngle (pointA pointB pointC : Option Keypoint) : ℝ :=
  match pointA, pointB, pointC with
  | some a, some b, some c =>
    let radians := atan2 (c.y - b.y) (c.x - b.x) - atan2 (a.y - b.y) (a.x - b.x)
    let angle := |radians * 180 / Real.pi|
    if 180 < angle then 360 - angle else angle
  | _, _, _ => 0

/-- Tolerance scorer of poseDetection.ts (`calculateJointAccuracy`):
exponential falloff beyond tolerance, with no clamp. -/
noncomputable def calculateJointAccuracy (actual target tolerance : ℝ) : ℝ :=
  let diff := |actual - target|
  if diff ≤ tolerance then 1
  else Real.exp (-0.5 * ((diff - tolerance) / tolerance) ^ 2)

end PoseDet

/-- C2: inside the tolerance band (`|θ − T| ≤ τ`, `τ > 0`) both tolerance
scorers return exactly 1.0. -/
theorem tolerance_band_full_credit (θ T τ : ℝ) (hτ : 0 < τ) (h : |θ - T| ≤ τ) :
    RefImages.calculateAngleAccuracy θ T τ = 1 ∧
    PoseDet.calculateJointAccuracy θ T τ = 1 := by
  constructor
  · unfold RefImages.calculateAngleAccuracy
    exact if_pos h
  · unfold PoseDet.calculateJointAccuracy
    exact if_pos h

/-- C2 witness: the in-tolerance scenario at θ = 95, T = 90, τ = 10. -/
theorem tolerance_band_full_credit_witness :
    (0 : ℝ) < 10 ∧ |(95 : ℝ) - 90| ≤ 10 ∧
      (RefImages.calculateAngleAccuracy 95 90 10 = 1 ∧
       PoseDet.calculateJointAccuracy 95 90 10 = 1) :=
  ⟨by norm_num, by rw [abs_of_pos] <;> norm_num,
   tolerance_band_full_credit 95 90 10 (by norm_num) (by rw [abs_of_pos] <;> norm_num)⟩

/-- Beyond the tolerance band the referenceImages scorer takes its clamped
Gaussian branch. -/
lemma angleAcc_of_lt (T τ d : ℝ) (hτ : 0 < τ) (hd : τ < d) :
    RefImages.calculateAngleAccuracy (T + d) T τ =
      max 0.1 (Real.exp (-0.3 * ((d - τ) / τ) ^ 2)) := by
  unfold RefImages.calculateAngleAccuracy
  rw [add_sub_cancel_left, abs_of_pos (lt_trans hτ hd), if_neg (not_le.mpr hd)]

/-- Beyond the tolerance band the poseDetection scorer takes its unclamped
Gaussian branch. -/
lemma jointAcc_of_lt (T τ d : ℝ) (hτ : 0 < τ) (hd : τ < d) :
    PoseDet.calculateJointAccuracy (T + d) T τ =
      Real.exp (-0.5 * ((d - τ) / τ) ^ 2) := by
  unfold PoseDet.calculateJointAccuracy
  rw [add_sub_cancel_left, abs_of_pos (lt_trans hτ hd), if_neg (not_le.mpr hd)]

/-- The Gaussian falloff term is antitone in the deviation, for any
nonnegative shape constant. -/
lemma fall_mono (k τ d1 d2 : ℝ) (hk : 0 ≤ k) (hτ : 0 < τ) (h1 : τ ≤ d1) (h12 : d1 ≤ d2) :
    Real.exp (-k * ((d2 - τ) / τ) ^ 2) ≤ Real.exp (-k * ((d1 - τ) / τ) ^ 2) := by
  apply Real.exp_le_exp.mpr
  have ha : 0 ≤ (d1 - τ) / τ := div_nonneg (by linarith) hτ.le
  have hb : (d1 - τ) / τ ≤ (d2 - τ) / τ := (div_le_div_iff_of_pos_right hτ).mpr (by linarith)
  have hsq : ((d1 - τ) / τ) ^ 2 ≤ ((d2 - τ) / τ) ^ 2 := pow_le_pow_left₀ ha hb 2
  nlinarith

/-- The Gaussian falloff term is at most 1. -/
lemma fall_le_one (k τ d : ℝ) (hk : 0 ≤ k) : Real.exp (-k * ((d - τ) / τ) ^ 2) ≤ 1 := by
  have h : -k * ((d - τ) / τ) ^ 2 ≤ 0 := by nlinarith [sq_nonneg ((d - τ) / τ)]
  calc Real.exp (-k * ((d - τ) / τ) ^ 2) ≤ Real.exp 0 := Real.exp_le_exp.mpr h
    _ = 1 := Real.exp_zero

/-- The referenceImages scorer never exceeds 1. -/
lemma angleAcc_le_one (θ T τ : ℝ) : RefImages.calculateAngleAccuracy θ T τ ≤ 1 := by
  unfold RefImages.calculateAngleAccuracy
  dsimp only
  split
  · exact le_rfl
  · exact max_le (by norm_num) (fall_le_one 0.3 τ |θ - T| (by norm_num))

/-- The poseDetection scorer never exceeds 1. -/
lemma jointAcc_le_one (θ T τ : ℝ) : PoseDet.calculateJointAccuracy θ T τ ≤ 1 := by
  unfold PoseDet.calculateJointAccuracy
  dsimp only
  split
  · exact le_rfl
  · exact fall_le_one 0.5 τ |θ - T| (by norm_num)

/-- At deviation exactly τ the referenceImages scorer gives full credit. -/
lemma angleAcc_boundary (T τ : ℝ) (hτ : 0 < τ) :
    RefImages.calculateAngleAccuracy (T + τ) T τ = 1 := by
  unfold RefImages.calculateAngleAccuracy
  rw [add_sub_cancel_left, abs_of_pos hτ, if_pos le_rfl]

/-- At deviation exactly τ the poseDetection scorer gives full credit. -/
lemma jointAcc_boundary (T τ : ℝ) (hτ : 0 < τ) :
    PoseDet.calculateJointAccuracy (T + τ) T τ = 1 := by
  unfold PoseDet.calculateJointAccuracy
  rw [add_sub_cancel_left, abs_of_pos hτ, if_pos le_rfl]

/-- C3 counterexample: the poseDetection variant of the tolerance scorer is
not bounded below by the claimed ≈0.1 floor: at θ = 1010, T = 0, τ = 10 it
returns `exp (−5000) < 0.01`. -/
theorem jointAccuracy_below_floor_example :
    PoseDet.calculateJointAccuracy 1010 0 10 < 0.01 := by
  unfold PoseDet.calculateJointAccuracy
  have habs : |(1010 : ℝ) - 0| = 1010 := by rw [sub_zero, abs_of_pos] ; norm_num
  rw [habs, if_neg (by norm_num)]
  have harg : (-0.5 * (((1010 : ℝ) - 10) / 10) ^ 2) = -5000 := by norm_num
  rw [harg, Real.exp_neg]
  have h1 : (5001 : ℝ) ≤ Real.exp 5000 := by
    have := Real.add_one_le_exp (5000 : ℝ); linarith
  have h2 : (Real.exp 5000)⁻¹ ≤ (5001 : ℝ)⁻¹ :=
    inv_anti₀ (by norm_num) h1
  calc (Real.exp 5000)⁻¹ ≤ (5001 : ℝ)⁻¹ := h2
    _ < 0.01 := by norm_num

/-- C3 amended: for τ > 0 both scorers equal 1 at deviation τ and follow a
continuous, monotonically non-increasing Gaussian falloff beyond it; the
referenceImages variant is clamped below at the constant 0.1, while the
poseDetection variant is strictly positive but approaches 0 — it admits no
positive constant floor (for every ε > 0 some deviation scores below ε). -/
theorem tolerance_falloff_amended (T τ : ℝ) (hτ : 0 < τ) :
    (RefImages.calculateAngleAccuracy (T + τ) T τ = 1 ∧
     PoseDet.calculateJointAccuracy (T + τ) T τ = 1) ∧
    (∀ d : ℝ, τ < d →
      RefImages.calculateAngleAccuracy (T + d) T τ =
        max 0.1 (Real.exp (-0.3 * ((d - τ) / τ) ^ 2)) ∧
      PoseDet.calculateJointAccuracy (T + d) T τ =
        Real.exp (-0.5 * ((d - τ) / τ) ^ 2)) ∧
    (Continuous fun d : ℝ => max 0.1 (Real.exp (-0.3 * ((d - τ) / τ) ^ 2))) ∧
    (Continuous fun d : ℝ => Real.exp (-0.5 * ((d - τ) / τ) ^ 2)) ∧
    (∀ d1 d2 : ℝ, τ ≤ d1 → d1 ≤ d2 →
      RefImages.calculateAngleAccuracy (T + d2) T τ ≤
        RefImages.calculateAngleAccuracy (T + d1) T τ ∧
      PoseDet.calculateJointAccuracy (T + d2) T τ ≤
        PoseDet.calculateJointAccuracy (T + d1) T τ) ∧
    (∀ θ : ℝ, 0.1 ≤ RefImages.calculateAngleAccuracy θ T τ ∧
      0 < PoseDet.calculateJointAccuracy θ T τ) ∧
    (∀ ε : ℝ, 0 < ε → ∃ d : ℝ, τ < d ∧ PoseDet.calculateJointAccuracy (T + d) T τ < ε) := by
  refine ⟨⟨angleAcc_boundary T τ hτ, jointAcc_boundary T τ hτ⟩, ?_, ?_, ?_, ?_, ?_, ?_⟩
  · exact fun d hd => ⟨angleAcc_of_lt T τ d hτ hd, jointAcc_of_lt T τ d hτ hd⟩
  · apply Continuous.max continuous_const
    exact Real.continuous_exp.comp (by continuity)
  · exact Real.continuous_exp.comp (by continuity)
  · intro d1 d2 h1 h12
    by_cases hc : d1 ≤ τ
    · have he : d1 = τ := le_antisymm hc h1
      subst he
      exact ⟨(angleAcc_boundary T d1 hτ).symm ▸ angleAcc_le_one (T + d2) T d1,
             (jointAcc_boundary T d1 hτ).symm ▸ jointAcc_le_one (T + d2) T d1⟩
    · push_neg at hc
      have h2' : τ < d2 := lt_of_lt_of_le hc h12
      constructor
      · rw [angleAcc_of_lt T τ d1 hτ hc, angleAcc_of_lt T τ d2 hτ h2']
        exact max_le_max le_rfl (fall_mono 0.3 τ d1 d2 (by norm_num) hτ hc.le h12)
      · rw [jointAcc_of_lt T τ d1 hτ hc, jointAcc_of_lt T τ d2 hτ h2']
        exact fall_mono 0.5 τ d1 d2 (by norm_num) hτ hc.le h12
  · intro θ
    constructor
    · unfold RefImages.calculateAngleAccuracy
      dsimp only
      split
      · norm_num
      · exact le_max_left _ _
    · unfold PoseDet.calculateJointAccuracy
      dsimp only
      split
      · norm_num
      · exact Real.exp_pos _
  · intro ε hε
    have hs : 0 < Real.sqrt (2 / ε) := Real.sqrt_pos.mpr (by positivity)
    refine ⟨τ + τ * Real.sqrt (2 / ε), by nlinarith, ?_⟩
    have hd : τ < τ + τ * Real.sqrt (2 / ε) := by nlinarith
    rw [jointAcc_of_lt T τ _ hτ hd]
    have hsimp : (τ + τ * Real.sqrt (2 / ε) - τ) / τ = Real.sqrt (2 / ε) := by
      rw [add_sub_cancel_left, mul_div_cancel_left₀ _ (ne_of_gt hτ)]
    rw [hsimp, Real.sq_sqrt (by positivity : (0 : ℝ) ≤ 2 / ε)]
    have h3 : (-0.5 * (2 / ε) : ℝ) = -(1 / ε) := by ring
    rw [h3, Real.exp_neg]
    have h4 : 1 + 1 / ε ≤ Real.exp (1 / ε) := by
      have := Real.add_one_le_exp (1 / ε); linarith
    have h6 : 1 / ε < Real.exp (1 / ε) := by linarith
    calc (Real.exp (1 / ε))⁻¹ < (1 / ε)⁻¹ := inv_strictAnti₀ (by positivity) h6
      _ = ε := by rw [one_div, inv_inv]

/-- C3 amended witness: the amended falloff properties at T = 0, τ = 10. -/
theorem tolerance_falloff_amended_witness :
    (0 : ℝ) < 10 ∧
      (RefImages.calculateAngleAccuracy (0 + 10) 0 10 = 1 ∧
       PoseDet.calculateJointAccuracy (0 + 10) 0 10 = 1) :=
  ⟨by norm_num, (tolerance_falloff_amended 0 10 (by norm_num)).1⟩

namespace RefImages

/-- One entry of a pose configuration: named angle check with a joint
triple, target, tolerance and weight (referenceImages.ts `POSE_CONFIGS`). -/
structure AngleCfg where
  aname : String
  j1 : String
  j2 : String
  j3 : String
  target : ℝ
  tolerance : ℝ
  weight : ℝ

/-- A pose configuration: ordered angle checks plus per-angle feedback text. -/
structure PoseCfg where
  angles : List AngleCfg
  fb : List (String × String)

noncomputable def cfgStandingForwardBend : PoseCfg :=
  ⟨[⟨"spine", "shoulders", "hips", "knees", 90, 15, 2⟩,
    ⟨"legs", "hips", "knees", "ankles", 180, 10, 1.5⟩],
   [("spine", "Fold forward from your hips, keeping your spine long"),
    ("legs", "Keep your legs straight or slightly bent")]⟩

noncomputable def cfgLotusPose : PoseCfg :=
  ⟨[⟨"spine", "shoulders", "hips", "knees", 180, 10, 2⟩,
    ⟨"hips", "left_hip", "right_hip", "knees", 45, 15, 1.5⟩],
   [("spine", "Keep your spine straight and tall"),
    ("hips", "Open your hips and cross your legs comfortably")]⟩

noncomputable def cfgTreePose : PoseCfg :=
  ⟨[⟨"standing_leg", "hip", "knee", "ankle", 180, 8, 2⟩,
    ⟨"bent_knee", "hip", "knee", "foot", 45, 10, 1.5⟩],
   [("standing_leg", "Keep your standing leg strong and straight"),
    ("bent_knee", "Open your hip and place your foot against your inner thigh")]⟩

noncomputable def cfgHeadstand : PoseCfg :=
  ⟨[⟨"body_line", "hips", "shoulders", "elbows", 180, 10, 2⟩,
    ⟨"legs", "ankles", "knees", "hips", 180, 8, 1.5⟩],
   [("body_line", "Keep your body in a straight line"),
    ("legs", "Point your toes up towards the ceiling")]⟩

noncomputable def cfgCorpsePose : PoseCfg :=
  ⟨[⟨"body_alignment", "shoulders", "hips", "ankles", 180, 10, 1⟩,
    ⟨"arms", "shoulders", "elbows", "wrists", 15, 10, 1⟩],
   [("body_alignment", "Keep your body relaxed and symmetrical"),
    ("arms", "Let your arms rest slightly away from your body")]⟩

/-- The `POSE_CONFIGS` lookup table of referenceImages.ts. -/
noncomputable def POSE_CONFIGS (k : String) : Option PoseCfg :=
  if k = "Standing_Forward_Bend" then some cfgStandingForwardBend
  else if k = "Lotus_Pose" then some cfgLotusPose
  else if k = "Tree_Pose" then some cfgTreePose
  else if k = "Headstand" then some cfgHeadstand
  else if k = "Corpse_Pose" then some cfgCorpsePose
  else none

/-- Alias resolution of referenceImages.ts (`mapPoseId`): kebab-case public
ids map to canonical profile keys, unknown ids pass through. -/
def mapPoseId (poseId : String) : String :=
  if poseId = "standing-forward-bend" then "Standing_Forward_Bend"
  else if poseId = "lotus" then "Lotus_Pose"
  else if poseId = "tree" then "Tree_Pose"
  else if poseId = "headstand" then "Headstand"
  else if poseId = "corpse" then "Corpse_Pose"
  else poseId

/-- `normalizedKeypoints.find(kp => kp.name?.toLowerCase().includes(joint.toLowerCase()))`. -/
def findJoint (nk : List Keypoint) (joint : String) : Option Keypoint :=
  nk.find? fun kp =>
    match kp.name with
    | some n => jsIncludes n.toLower joint.toLower
    | none => false

/-- `p && p.score && p.score > 0.3`: the keypoint is usable for an angle check. -/
noncomputable def usableKp (kp : Keypoint) : Bool :=
  match kp.score with
  | some s => decide (0.3 < s)
  | none => false

/-- Accuracy of one angle check on the normalized keypoints, when all three
triple points are found and usable; `none` otherwise. -/
noncomputable def measuredAccuracy (nk : List Keypoint) (a : AngleCfg) : Option ℝ :=
  match findJoint nk a.j1, findJoint nk a.j2, findJoint nk a.j3 with
  | some p1, some p2, some p3 =>
    if usableKp p1 && usableKp p2 && usableKp p3 then
      some (calculateAngleAccuracy (calculateAngle p1 p2 p3) a.target a.tolerance)
    else none
  | _, _, _ => none

/-- `config.feedback[angle.name]` (always present for the shipped configs). -/
def feedbackFor (cfg : PoseCfg) (n : String) : String :=
  match cfg.fb.find? (fun p => p.1 == n) with
  | some p => p.2
  | none => "undefined"

/-- The `(totalWeightedAccuracy, totalWeight, validAngles)` accumulation of
the `config.angles.forEach` loop. -/
noncomputable def anglesTotals (nk : List Keypoint) (angles : List AngleCfg) : ℝ × ℝ × ℕ :=
  angles.foldl
    (fun t a =>
      match measuredAccuracy nk a with
      | some acc => (t.1 + acc * a.weight, t.2.1 + a.weight, t.2.2 + 1)
      | none => t)
    (0, 0, 0)

/-- The feedback message contributed by one angle check: the configured
corrective text when measured below 0.7, the visibility message when the
check could not be measured, nothing otherwise. -/
noncomputable def angleMsg (nk : List Keypoint) (cfg : PoseCfg) (a : AngleCfg) : Option String :=
  match measuredAccuracy nk a with
  | some acc => if acc < 0.7 then some (feedbackFor cfg a.aname) else none
  | none => some ("Move closer to the camera to detect " ++ a.aname ++ " alignment")

/-- The single overall message unshifted in front of the joint feedback. -/
noncomputable def overallMsg (validAngles : ℕ) (anglesLen : ℕ) (scaled : ℝ) : String :=
  if (validAngles : ℝ) < (anglesLen : ℝ) / 2 then
    "Move closer to the camera for better pose detection"
  else if scaled < 30 then "Focus on the basic alignment of the pose"
  else if scaled < 60 then "Keep adjusting to find better alignment"
  else if scaled < 85 then "Good form! Make small refinements"
  else "Excellent form! Maintain your stability"

/-- Result record of `calculatePoseAccuracy`. -/
structure AccResult where
  accuracy : ℝ
  feedback : List String
  referenceImage : String

/-- Main scoring entry point of referenceImages.ts
(`calculatePoseAccuracy`): resolves the pose id, normalizes keypoints,
accumulates weighted angle accuracies, rescales through a sigmoid with a
floor of `max 5 (validAngles·5)` and a cap of 99, and returns the overall
message followed by at most two per-angle messages, capped at 3.
JavaScript `Math.round` agrees with Mathlib `round` (⌊x + 1/2⌋) on all
finite arguments. -/
noncomputable def calculatePoseAccuracy (kps : List Keypoint) (poseType ref : String) :
    AccResult :=
  match POSE_CONFIGS (mapPoseId poseType) with
  | none => ⟨0, ["Unknown pose type"], ref⟩
  | some cfg =>
    let nk := normalizeKeypoints kps
    let t := anglesTotals nk cfg.angles
    let rawAccuracy := if 0 < t.2.1 then t.1 / t.2.1 else 0
    let minAccuracy : ℝ := max 5 ((t.2.2 : ℝ) * 5)
    let scaled : ℝ :=
      max minAccuracy (min 99
        ((round (minAccuracy + (99 - minAccuracy) *
          (1 / (1 + Real.exp (-8 * (rawAccuracy - 0.5)))))) : ℝ))
    let msgs := cfg.angles.filterMap (angleMsg nk cfg)
    ⟨scaled, (overallMsg t.2.2 cfg.angles.length scaled :: msgs).take 3, ref⟩

end RefImages

/-- C4 amended: the referenceImages keypoint normalizer returns its input
unchanged exactly under the guard the code actually has — fewer than two
shoulder-named or fewer than two hip-named keypoints; a zero anchor
distance is not guarded. -/
theorem normalize_identity_when_anchors_missing (kps : List Keypoint)
    (h : (kps.filter RefImages.hasShoulderName).length < 2 ∨
         (kps.filter RefImages.hasHipName).length < 2) :
    RefImages.normalizeKeypoints kps = kps := by
  unfold RefImages.normalizeKeypoints
  exact if_pos h

/-- C4 amended witness: the empty keypoint list passes through unchanged. -/
theorem normalize_identity_when_anchors_missing_witness :
    ((([] : List Keypoint).filter RefImages.hasShoulderName).length < 2 ∨
     (([] : List Keypoint).filter RefImages.hasHipName).length < 2) ∧
    RefImages.normalizeKeypoints [] = [] :=
  ⟨Or.inl (by simp), normalize_identity_when_anchors_missing [] (Or.inl (by simp))⟩

/-- Concrete input for the C4 counterexample: both shoulder keypoints
coincide, so the body-scale reference distance is 0. -/
noncomputable def c4LS : Keypoint := ⟨some "left_shoulder", 1, 2, some 1⟩

noncomputable def c4RS : Keypoint := ⟨some "right_shoulder", 1, 2, some 1⟩

noncomputable def c4LH : Keypoint := ⟨some "left_hip", 3, 4, some 1⟩

noncomputable def c4RH : Keypoint := ⟨some "right_hip", 5, 6, some 1⟩

noncomputable def c4List : List Keypoint := [c4LS, c4RS, c4LH, c4RH]

/-- C4 counterexample: with two coincident shoulder keypoints the
body-scale distance is 0, yet normalization is not skipped: the code
divides by it and the output differs from the input (in JavaScript the
first coordinate becomes −Infinity; under Lean's total division it
becomes 0 — either way it is not the input value 1). -/
theorem normalize_zero_scale_not_identity :
    RefImages.normalizeKeypoints c4List ≠ c4List := by
  have hb1 : RefImages.hasShoulderName c4LS = true := by rfl
  have hb2 : RefImages.hasShoulderName c4RS = true := by rfl
  have hb3 : RefImages.hasShoulderName c4LH = false := by rfl
  have hb4 : RefImages.hasShoulderName c4RH = false := by rfl
  have hh1 : RefImages.hasHipName c4LS = false := by rfl
  have hh2 : RefImages.hasHipName c4RS = false := by rfl
  have hh3 : RefImages.hasHipName c4LH = true := by rfl
  have hh4 : RefImages.hasHipName c4RH = true := by rfl
  have hhead : (RefImages.normalizeKeypoints c4List).headI.x = 0 := by
    unfold RefImages.normalizeKeypoints
    simp only [c4List, List.filter, hb1, hb2, hb3, hb4, hh1, hh2, hh3, hh4]
    norm_num [c4LS, c4RS, c4LH, c4RH, List.getD, RefImages.dummyKp, List.headI]
  intro h
  rw [h] at hhead
  have : c4List.headI.x = 1 := by norm_num [c4List, c4LS, List.headI]
  rw [this] at hhead
  norm_num at hhead

namespace PoseDet

/-- The duplicate filter of detectPose (poseDetection.ts lines 1253–1257):
`array.filter((item, i, a) => a.indexOf(item) === i)` keeps the first
occurrence of every string, modelled as a left fold. -/
def dedupFilter (l : List String) : List String :=
  l.foldl (fun acc x => if x ∈ acc then acc else acc ++ [x]) []

/-- The feedback combination step of detectPose: concatenate validation
feedback, scoring feedback and adjustments, deduplicate, keep the top 3. -/
def combinedFeedback (validationFb scoringFb adjustments : List String) : List String :=
  (dedupFilter (validationFb ++ scoringFb ++ adjustments)).take 3

end PoseDet

/-- Taking 3 elements bounds the length by 3. -/
lemma take3_length {α : Type} (l : List α) : (l.take 3).length ≤ 3 := by
  rw [List.length_take]
  exact min_le_left _ _

/-- The fold underlying `dedupFilter` preserves `Nodup`. -/
lemma dedupFilter_loop_nodup (l : List String) :
    ∀ acc : List String, acc.Nodup →
      (l.foldl (fun acc x => if x ∈ acc then acc else acc ++ [x]) acc).Nodup := by
  induction l with
  | nil => exact fun acc h => h
  | cons x xs ih =>
    intro acc h
    simp only [List.foldl_cons]
    by_cases hx : x ∈ acc
    · rw [if_pos hx]; exact ih acc h
    · rw [if_neg hx]
      apply ih
      simp [List.nodup_append, h, hx]

/-- `dedupFilter` output never contains duplicates. -/
lemma dedupFilter_nodup (l : List String) : (PoseDet.dedupFilter l).Nodup :=
  dedupFilter_loop_nodup l [] (by simp)

/-- The overall banding message is one of five fixed strings. -/
lemma overallMsg_mem (v n : ℕ) (s : ℝ) :
    RefImages.overallMsg v n s ∈
      (["Move closer to the camera for better pose detection",
        "Focus on the basic alignment of the pose",
        "Keep adjusting to find better alignment",
        "Good form! Make small refinements",
        "Excellent form! Maintain your stability"] : List String) := by
  unfold RefImages.overallMsg
  split_ifs <;> simp

/-- Each angle check contributes either nothing, its configured corrective
text, or its visibility message. -/
lemma angleMsg_cases (nk : List Keypoint) (cfg : RefImages.PoseCfg) (a : RefImages.AngleCfg) :
    RefImages.angleMsg nk cfg a = none ∨
    RefImages.angleMsg nk cfg a = some (RefImages.feedbackFor cfg a.aname) ∨
    RefImages.angleMsg nk cfg a =
      some ("Move closer to the camera to detect " ++ a.aname ++ " alignment") := by
  unfold RefImages.angleMsg
  cases RefImages.measuredAccuracy nk a with
  | none => right; right; rfl
  | some acc =>
    by_cases h : acc < 0.7
    · right; left; simp [h]
    · left; simp [h]

/-- A one-message-per-source list headed by a fresh overall message has no
duplicates. -/
lemma nodup_feedback_aux (o f1 v1 f2 v2 : String) (m1 m2 : Option String)
    (h1 : m1 = none ∨ m1 = some f1 ∨ m1 = some v1)
    (h2 : m2 = none ∨ m2 = some f2 ∨ m2 = some v2)
    (ho1 : o ≠ f1) (ho2 : o ≠ v1) (ho3 : o ≠ f2) (ho4 : o ≠ v2)
    (hx1 : f1 ≠ f2) (hx2 : f1 ≠ v2) (hx3 : v1 ≠ f2) (hx4 : v1 ≠ v2) :
    (o :: (m1.toList ++ m2.toList)).Nodup := by
  rcases h1 with rfl | rfl | rfl <;> rcases h2 with rfl | rfl | rfl <;>
    simp [ho1, ho2, ho3, ho4, hx1, hx2, hx3, hx4]

/-- For a two-angle configuration whose four candidate angle messages are
pairwise distinct and distinct from every overall message, the assembled
feedback list is duplicate-free. -/
lemma feedback_branch_ok (nk : List Keypoint) (cfg : RefImages.PoseCfg)
    (a1 a2 : RefImages.AngleCfg) (hangles : cfg.angles = [a1, a2])
    (H : ∀ o ∈ (["Move closer to the camera for better pose detection",
        "Focus on the basic alignment of the pose",
        "Keep adjusting to find better alignment",
        "Good form! Make small refinements",
        "Excellent form! Maintain your stability"] : List String),
      o ≠ RefImages.feedbackFor cfg a1.aname ∧
      o ≠ ("Move closer to the camera to detect " ++ a1.aname ++ " alignment") ∧
      o ≠ RefImages.feedbackFor cfg a2.aname ∧
      o ≠ ("Move closer to the camera to detect " ++ a2.aname ++ " alignment"))
    (hx1 : RefImages.feedbackFor cfg a1.aname ≠ RefImages.feedbackFor cfg a2.aname)
    (hx2 : RefImages.feedbackFor cfg a1.aname ≠
      ("Move closer to the camera to detect " ++ a2.aname ++ " alignment"))
    (hx3 : ("Move closer to the camera to detect " ++ a1.aname ++ " alignment") ≠
      RefImages.feedbackFor cfg a2.aname)
    (hx4 : ("Move closer to the camera to detect " ++ a1.aname ++ " alignment") ≠
      ("Move closer to the camera to detect " ++ a2.aname ++ " alignment"))
    (v n : ℕ) (s : ℝ) :
    ((RefImages.overallMsg v n s :: cfg.angles.filterMap (RefImages.angleMsg nk cfg)).take 3).Nodup := by
  obtain ⟨ho1, ho2, ho3, ho4⟩ := H _ (overallMsg_mem v n s)
  rw [hangles]
  have hfm : List.filterMap (RefImages.angleMsg nk cfg) [a1, a2] =
      (RefImages.angleMsg nk cfg a1).toList ++ (RefImages.angleMsg nk cfg a2).toList := by
    cases hm1 : RefImages.angleMsg nk cfg a1 <;> cases hm2 : RefImages.angleMsg nk cfg a2 <;>
      simp [List.filterMap_cons, hm1, hm2]
  rw [hfm]
  have hnd : (RefImages.overallMsg v n s ::
      ((RefImages.angleMsg nk cfg a1).toList ++ (RefImages.angleMsg nk cfg a2).toList)).Nodup :=
    nodup_feedback_aux _ _ _ _ _ _ _
      (angleMsg_cases nk cfg a1) (angleMsg_cases nk cfg a2)
      ho1 ho2 ho3 ho4 hx1 hx2 hx3 hx4
  exact List.Nodup.sublist (List.take_sublist 3 _) hnd

/-- A configuration returned by `POSE_CONFIGS` is one of the five shipped ones. -/
lemma POSE_CONFIGS_cases (k : String) (cfg : RefImages.PoseCfg)
    (h : RefImages.POSE_CONFIGS k = some cfg) :
    cfg = RefImages.cfgStandingForwardBend ∨ cfg = RefImages.cfgLotusPose ∨
    cfg = RefImages.cfgTreePose ∨ cfg = RefImages.cfgHeadstand ∨
    cfg = RefImages.cfgCorpsePose := by
  unfold RefImages.POSE_CONFIGS at h
  split_ifs at h <;> simp_all

/-- C8: the per-frame feedback lists contain no duplicate strings and are
capped at 3 entries: for every input of `calculatePoseAccuracy`
(referenceImages.ts), and for every triple of source lists fed into
detectPose's combine-dedupe-slice step (poseDetection.ts). -/
theorem feedback_nodup_and_capped :
    (∀ (kps : List Keypoint) (poseType ref : String),
      ((RefImages.calculatePoseAccuracy kps poseType ref).feedback).Nodup ∧
      ((RefImages.calculatePoseAccuracy kps poseType ref).feedback).length ≤ 3) ∧
    (∀ f1 f2 f3 : List String,
      (PoseDet.combinedFeedback f1 f2 f3).Nodup ∧
      (PoseDet.combinedFeedback f1 f2 f3).length ≤ 3) := by
  constructor
  · intro kps poseType ref
    unfold RefImages.calculatePoseAccuracy
    cases hcfg : RefImages.POSE_CONFIGS (RefImages.mapPoseId poseType) with
    | none => simp
    | some cfg =>
      rcases POSE_CONFIGS_cases _ _ hcfg with rfl | rfl | rfl | rfl | rfl <;>
        exact ⟨feedback_branch_ok _ _ _ _ rfl (by decide) (by decide) (by decide)
            (by decide) (by decide) _ _ _,
          take3_length _⟩
  · intro f1 f2 f3
    exact ⟨List.Nodup.sublist (List.take_sublist 3 _) (dedupFilter_nodup _),
      take3_length _⟩

namespace PoseComp

/-- Angle at vertex `b` (src/utils/poseComparison.ts, `calculateAngle`). -/
noncomputable def calculateAngle (a b c : Keypoint) : ℝ :=
  let radians := atan2 (c.y - b.y) (c.x - b.x) - atan2 (a.y - b.y) (a.x - b.x)
  let angle := |radians * 180 / Real.pi|
  if 180 < angle then 360 - angle else angle

/-- Keypoint normalization of poseComparison.ts: indexes `keypoints[11]`,
`keypoints[12]` (hips) and `keypoints[0]` (nose) with no guard — on a list
shorter than 13 entries the JavaScript code throws a TypeError, modelled
as `none`.  The division by `bodySize` is likewise unguarded. -/
noncomputable def normalizeKeypoints (keypoints : List Keypoint) : Option (List Keypoint) :=
  match keypoints.get? 0, keypoints.get? 11, keypoints.get? 12 with
  | some k0, some k11, some k12 =>
    let hipX := (k11.x + k12.x) / 2
    let hipY := (k11.y + k12.y) / 2
    let bodySize := Real.sqrt ((hipX - k0.x) ^ 2 + (hipY - k0.y) ^ 2)
    some (keypoints.map fun kp =>
      { kp with x := (kp.x - hipX) / bodySize, y := (kp.y - hipY) / bodySize })
  | _, _, _ => none

/-- Alias resolution of poseComparison.ts (`mapPoseId`), identical to the
referenceImages one. -/
def mapPoseId (poseId : String) : String :=
  if poseId = "standing-forward-bend" then "Standing_Forward_Bend"
  else if poseId = "lotus" then "Lotus_Pose"
  else if poseId = "tree" then "Tree_Pose"
  else if poseId = "headstand" then "Headstand"
  else if poseId = "corpse" then "Corpse_Pose"
  else poseId

/-- One configuration block of the `poseAngles` table: joint-name triples
paired with their target angles (the source keeps two parallel arrays of
equal length; they are zipped here). -/
structure CompCfg where
  joints : List (String × String × String)
  targetAngles : List ℝ

/-- The `poseAngles` lookup table of `comparePoses` (each key maps to a
one-element list of configuration blocks in the source). -/
noncomputable def poseAngles (k : String) : Option (List CompCfg) :=
  if k = "Standing_Forward_Bend" then
    some [⟨[("shoulders", "hips", "knees"), ("hips", "knees", "ankles")], [90, 180]⟩]
  else if k = "Lotus_Pose" then
    some [⟨[("left_hip", "left_knee", "left_ankle"), ("right_hip", "right_knee", "right_ankle")],
      [45, 45]⟩]
  else if k = "Tree_Pose" then
    some [⟨[("left_hip", "left_knee", "left_ankle"), ("right_shoulder", "right_hip", "right_knee"),
      ("left_shoulder", "left_hip", "left_knee")], [180, 180, 180]⟩]
  else if k = "Headstand" then
    some [⟨[("shoulders", "elbows", "wrists"), ("hips", "shoulders", "elbows")], [90, 180]⟩]
  else if k = "Corpse_Pose" then
    some [⟨[("shoulders", "hips", "ankles"), ("shoulders", "elbows", "wrists")], [180, 15]⟩]
  else none

/-- The pose-specific feedback switch inside the `comparePoses` loop,
keyed on the resolved pose type and the middle joint name. -/
def jointFeedback (mappedPoseType j2 : String) : Option String :=
  if mappedPoseType = "Standing_Forward_Bend" then
    if j2 = "knees" then some "Bend your knees as if sitting in a chair"
    else if j2 = "hips" then some "Keep your spine straight, chest lifted"
    else none
  else if mappedPoseType = "Lotus_Pose" then
    if j2 = "left_hip" ∨ j2 = "right_hip" then some "Keep your legs straight and open"
    else none
  else if mappedPoseType = "Tree_Pose" then
    if j2 = "right_hip" then some "Keep your standing leg straight and strong"
    else if j2 = "left_hip" then some "Turn your bent knee out to the side more"
    else none
  else if mappedPoseType = "Headstand" then
    if j2 = "shoulders" then some "Keep your shoulders relaxed and level"
    else none
  else if mappedPoseType = "Corpse_Pose" then
    if j2 = "hips" ∨ j2 = "shoulders" then some "Keep your body in a straight line"
    else none
  else none

/-- JavaScript object assignment `jointAccuracies[joint2] = v`: overwrite in
place if the key exists, append otherwise. -/
def upsert (l : List (String × ℝ)) (k : String) (v : ℝ) : List (String × ℝ) :=
  if l.any (fun p => p.1 == k) then
    l.map fun p => if p.1 == k then (k, v) else p
  else l ++ [(k, v)]

/-- Accumulator of the `comparePoses` joint loop:
`(totalAccuracy, angleCount, jointAccuracies, feedback)`. -/
structure CompAcc where
  total : ℝ
  count : ℕ
  jas : List (String × ℝ)
  fb : List String

/-- One iteration of the `config.joints.forEach` loop.  The source applies
non-null assertions to the three name lookups; when a lookup fails the
subsequent property access inside `calculateAngle` throws a TypeError,
modelled as `none`. -/
noncomputable def processJointSet (nu : List Keypoint) (mappedPoseType : String)
    (acc : CompAcc) (js : (String × String × String) × ℝ) : Option CompAcc :=
  match nu.find? (fun kp => kp.name == some js.1.1),
        nu.find? (fun kp => kp.name == some js.1.2.1),
        nu.find? (fun kp => kp.name == some js.1.2.2) with
  | some p1, some p2, some p3 =>
    let userAngle := calculateAngle p1 p2 p3
    let angleDiff := |userAngle - js.2|
    let angleAccuracy := max 0 (1 - angleDiff / 90)
    let fb' := if angleAccuracy < 0.7 then
        acc.fb ++ (jointFeedback mappedPoseType js.1.2.1).toList
      else acc.fb
    some ⟨acc.total + angleAccuracy, acc.count + 1,
      upsert acc.jas js.1.2.1 angleAccuracy, fb'⟩
  | _, _, _ => none

/-- Result record of `comparePoses`. -/
structure CompResult where
  accuracy : ℝ
  jointAccuracies : List (String × ℝ)
  feedback : List String

/-- The overall banding message prepended by `comparePoses`. -/
noncomputable def compBandMsg (finalAccuracy : ℝ) : String :=
  if finalAccuracy < 50 then "Try to match the reference pose more closely"
  else if finalAccuracy < 80 then "Getting better! Focus on the specific alignment cues"
  else "Great form! Hold the pose and breathe deeply"

/-- `comparePoses` of poseComparison.ts: normalizes both poses (throwing on
short keypoint lists), walks the configured joint triples of the resolved
pose (throwing when a configured name has no matching keypoint), averages
the per-joint accuracies and prepends a banding message.  A `none` result
models a thrown exception; an unknown pose id skips the loop entirely. -/
noncomputable def comparePoses (userKeypoints targetKeypoints : List Keypoint)
    (poseType : String) : Option CompResult :=
  match normalizeKeypoints userKeypoints with
  | none => none
  | some nu =>
    match normalizeKeypoints targetKeypoints with
    | none => none
    | some _ =>
      let mappedPoseType := mapPoseId poseType
      let accOpt : Option CompAcc :=
        match poseAngles mappedPoseType with
        | none => some ⟨0, 0, [], []⟩
        | some cfgs =>
          cfgs.foldl
            (fun a cfg =>
              (cfg.joints.zip cfg.targetAngles).foldl
                (fun a' js => a'.bind fun st => processJointSet nu mappedPoseType st js) a)
            (some ⟨0, 0, [], []⟩)
      accOpt.map fun st =>
        let finalAccuracy := if 0 < st.count then st.total / (st.count : ℝ) * 100 else 0
        ⟨finalAccuracy, st.jas, compBandMsg finalAccuracy :: st.fb⟩

end PoseComp

/-- A keypoint list of length ≥ 13 normalizes without throwing. -/
lemma normalize_some_of_length (kps : List Keypoint) (h : 13 ≤ kps.length) :
    ∃ nu, PoseComp.normalizeKeypoints kps = some nu := by
  unfold PoseComp.normalizeKeypoints
  rw [List.get?_eq_get (by omega : 0 < kps.length),
      List.get?_eq_get (by omega : 11 < kps.length),
      List.get?_eq_get (by omega : 12 < kps.length)]
  exact ⟨_, rfl⟩

/-- C6 amended: an unresolved pose identifier yields `accuracy 0` with the
single message `"Unknown pose type"` from `calculatePoseAccuracy`
(referenceImages.ts), while `comparePoses` (poseComparison.ts) — given
keypoint lists long enough not to throw during normalization — yields
`accuracy 0`, no joint accuracies, and the single generic message
`"Try to match the reference pose more closely"` instead. -/
theorem unknown_pose_degenerate_amended
    (kps : List Keypoint) (p ref : String)
    (hp : RefImages.POSE_CONFIGS (RefImages.mapPoseId p) = none)
    (u t : List Keypoint) (hu : 13 ≤ u.length) (ht : 13 ≤ t.length)
    (hq : PoseComp.poseAngles (PoseComp.mapPoseId p) = none) :
    RefImages.calculatePoseAccuracy kps p ref = ⟨0, ["Unknown pose type"], ref⟩ ∧
    PoseComp.comparePoses u t p =
      some ⟨0, [], ["Try to match the reference pose more closely"]⟩ := by
  constructor
  · unfold RefImages.calculatePoseAccuracy
    rw [hp]
  · obtain ⟨nu, hnu⟩ := normalize_some_of_length u hu
    obtain ⟨nt, hnt⟩ := normalize_some_of_length t ht
    unfold PoseComp.comparePoses
    rw [hnu, hnt]
    dsimp only
    rw [hq]
    norm_num [PoseComp.compBandMsg]

/-- Concrete keypoint for the C6 witness. -/
noncomputable def c6Kp : Keypoint := ⟨some "nose", 0, 0, some 1⟩

/-- A 13-entry keypoint list: long enough for `comparePoses` not to throw. -/
noncomputable def c6List13 : List Keypoint := List.replicate 13 c6Kp

/-- C6 amended witness: the degenerate results at the unknown id
`"mystery-pose"`. -/
theorem unknown_pose_degenerate_amended_witness :
    (RefImages.POSE_CONFIGS (RefImages.mapPoseId "mystery-pose") = none ∧
     13 ≤ c6List13.length ∧
     PoseComp.poseAngles (PoseComp.mapPoseId "mystery-pose") = none) ∧
    (RefImages.calculatePoseAccuracy [] "mystery-pose" "img" =
       ⟨0, ["Unknown pose type"], "img"⟩ ∧
     PoseComp.comparePoses c6List13 c6List13 "mystery-pose" =
       some ⟨0, [], ["Try to match the reference pose more closely"]⟩) :=
  ⟨⟨by rfl, by simp [c6List13], by rfl⟩,
   unknown_pose_degenerate_amended [] "mystery-pose" "img" (by rfl) c6List13 c6List13
     (by simp [c6List13]) (by simp [c6List13]) (by rfl)⟩

/-- A nonempty but short keypoint list for the C6 counterexample. -/
noncomputable def c6Short : List Keypoint := [⟨some "nose", 1, 2, some 0.9⟩]

/-- C6 counterexample: with an unknown pose id and a nonempty keypoint
list of fewer than 13 entries, `comparePoses` does not return the claimed
degenerate result at all — it throws (keypoints[11] is undefined and its
`.x` access raises a TypeError before the pose id is even consulted),
modelled as `none`. -/
theorem comparePoses_throws_on_unknown_pose :
    PoseComp.comparePoses c6Short c6Short "mystery-pose" = none := by rfl

/-- If no input keypoint is named `shoulders`, the name lookup for
`shoulders` on the normalized keypoints fails (normalization preserves
names). -/
lemma find_shoulders_none (kps nu : List Keypoint)
    (h : PoseComp.normalizeKeypoints kps = some nu)
    (hn : ∀ kp ∈ kps, kp.name ≠ some "shoulders") :
    nu.find? (fun kp => kp.name == some "shoulders") = none := by
  unfold PoseComp.normalizeKeypoints at h
  split at h
  · rw [Option.some.injEq] at h
    subst h
    rw [List.find?_map]
    simp only [Option.map_eq_none']
    rw [List.find?_eq_none]
    intro kp hkp
    simp only [Function.comp_apply]
    have := hn kp hkp
    simp [this]
  · exact absurd h (by simp)

/-- C9: for the three poses whose configured joint triples use aggregate
names (`Standing_Forward_Bend`, `Headstand`, `Corpse_Pose` all start with a
`shoulders` lookup), a keypoint list containing no keypoint literally named
`shoulders` — which is true of all BlazePose detector outputs, whose names
are `left_shoulder`, `right_shoulder`, etc. — makes the non-null-asserted
`find` return undefined and the subsequent property access inside
`calculateAngle` throw, so `comparePoses` never returns a result. -/
theorem aggregate_names_cause_throw (u t : List Keypoint) (p : String)
    (hp : PoseComp.mapPoseId p = "Standing_Forward_Bend" ∨
          PoseComp.mapPoseId p = "Headstand" ∨
          PoseComp.mapPoseId p = "Corpse_Pose")
    (hn : ∀ kp ∈ u, kp.name ≠ some "shoulders") :
    PoseComp.comparePoses u t p = none := by
  unfold PoseComp.comparePoses
  cases hu : PoseComp.normalizeKeypoints u with
  | none => rfl
  | some nu =>
    cases ht : PoseComp.normalizeKeypoints t with
    | none => rfl
    | some nt =>
      have hfind := find_shoulders_none u nu hu hn
      dsimp only
      rcases hp with hp | hp | hp <;> rw [hp] <;>
        simp [PoseComp.poseAngles, PoseComp.processJointSet, List.zip, hfind]

/-- Concrete keypoint for the C9 witness. -/
noncomputable def c9Kp : Keypoint := ⟨some "left_shoulder", 3, 4, some 0.9⟩

/-- A 13-entry list of detector-named keypoints for the C9 witness. -/
noncomputable def c9List : List Keypoint := List.replicate 13 c9Kp

/-- C9 witness: `comparePoses` on detector-named keypoints with the
`standing-forward-bend` pose id returns no result. -/
theorem aggregate_names_cause_throw_witness :
    ((PoseComp.mapPoseId "standing-forward-bend" = "Standing_Forward_Bend" ∨
      PoseComp.mapPoseId "standing-forward-bend" = "Headstand" ∨
      PoseComp.mapPoseId "standing-forward-bend" = "Corpse_Pose") ∧
     (∀ kp ∈ c9List, kp.name ≠ some "shoulders")) ∧
    PoseComp.comparePoses c9List c9List "standing-forward-bend" = none :=
  ⟨⟨Or.inl (by rfl), by intro kp hkp; simp [c9List, List.eq_of_mem_replicate hkp, c9Kp]⟩,
   aggregate_names_cause_throw c9List c9List "standing-forward-bend" (Or.inl (by rfl))
     (by intro kp hkp; simp [c9List, List.eq_of_mem_replicate hkp, c9Kp])⟩

namespace PoseDet

/-- JavaScript truthiness of an optional score: present and nonzero. -/
noncomputable def scoreT (kp : Keypoint) : Bool :=
  match kp.score with
  | some s => decide (s ≠ 0)
  | none => false

/-- JavaScript truthiness of an optional name: present and nonempty. -/
def nameT (kp : Keypoint) : Bool :=
  match kp.name with
  | some n => !(n == "")
  | none => false

/-- `kp.score && kp.score > 0.3`. -/
noncomputable def usableScorePD (kp : Keypoint) : Bool :=
  match kp.score with
  | some s => decide (0.3 < s)
  | none => false

/-- `keypoints.find(kp => kp.name === n)`. -/
def getPoint (kps : List Keypoint) (n : String) : Option Keypoint :=
  kps.find? fun kp => kp.name == some n

/-- The `KEYPOINT_WEIGHTS` table of poseDetection.ts. -/
noncomputable def KEYPOINT_WEIGHTS : List (String × ℝ) :=
  [("nose", 0.5), ("left_eye", 0.3), ("right_eye", 0.3), ("left_ear", 0.2),
   ("right_ear", 0.2), ("left_shoulder", 0.8), ("right_shoulder", 0.8),
   ("left_elbow", 0.7), ("right_elbow", 0.7), ("left_wrist", 0.6),
   ("right_wrist", 0.6), ("left_hip", 0.9), ("right_hip", 0.9),
   ("left_knee", 0.8), ("right_knee", 0.8), ("left_ankle", 0.7),
   ("right_ankle", 0.7)]

/-- Weight of a named keypoint, defaulting to 0.5 for unknown names. -/
noncomputable def keypointWeight (n : String) : ℝ :=
  match KEYPOINT_WEIGHTS.find? (fun p => p.1 == n) with
  | some p => p.2
  | none => 0.5

/-- The sigmoid applied to raw keypoint scores inside
`calculatePoseAccuracyWithFeedback`. -/
noncomputable def sigmoid10 (x : ℝ) : ℝ := 1 / (1 + Real.exp (-10 * (x - 0.5)))

/-- The `alignment` part of the `POSE_GUIDANCE` table (the `setup` strings
are display-only and never read by the scoring logic). -/
noncomputable def POSE_GUIDANCE (k : String) : Option (List (String × ℝ × ℝ)) :=
  if k = "standing-forward-bend" then
    some [("spine", 90, 15), ("knees", 165, 10), ("hips", 90, 15),
          ("shoulders", 180, 15), ("neck", 45, 10)]
  else if k = "lotus" then
    some [("spine", 180, 10), ("hips", 45, 15), ("knees", 30, 15),
          ("shoulders", 180, 10), ("neck", 180, 10)]
  else if k = "tree" then
    some [("standing_leg", 175, 5), ("raised_knee", 90, 15), ("hips", 180, 10),
          ("spine", 180, 5), ("shoulders", 180, 10)]
  else if k = "headstand" then
    some [("forearms", 90, 10), ("shoulders", 90, 10), ("spine", 180, 5),
          ("hips", 180, 10), ("legs", 180, 10)]
  else if k = "corpse" then
    some [("spine", 180, 5), ("shoulders", 180, 10), ("hips", 180, 10),
          ("legs", 180, 10), ("neck", 180, 5)]
  else none

/-- The pose-specific joint-angle switch of poseDetection.ts
(`calculateJointAngle`): returns `null` (here `none`) when the joint name
is not handled or any required keypoint is absent or has a falsy score —
note that no 0.3 confidence threshold is applied here. -/
noncomputable def calculateJointAngle (kps : List Keypoint) (joint : String) : Option ℝ :=
  if joint = "spine" then
    match getPoint kps "nose", getPoint kps "left_shoulder", getPoint kps "right_shoulder",
          getPoint kps "left_hip", getPoint kps "right_hip" with
    | some nose, some ls, some rs, some lh, some rh =>
      if scoreT nose && scoreT ls && scoreT rs && scoreT lh && scoreT rh then
        let midShoulder : Keypoint :=
          ⟨some "mid_shoulder", (ls.x + rs.x) / 2, (ls.y + rs.y) / 2, some 1⟩
        let midHip : Keypoint := ⟨some "mid_hip", (lh.x + rh.x) / 2, (lh.y + rh.y) / 2, some 1⟩
        some (calculateAngle (some nose) (some midShoulder) (some midHip))
      else none
    | _, _, _, _, _ => none
  else if joint = "knees" then
    match getPoint kps "left_hip", getPoint kps "left_knee", getPoint kps "left_ankle",
          getPoint kps "right_hip", getPoint kps "right_knee", getPoint kps "right_ankle" with
    | some lh, some lk, some la, some rh, some rk, some ra =>
      if scoreT lh && scoreT lk && scoreT la && scoreT rh && scoreT rk && scoreT ra then
        some ((calculateAngle (some lh) (some lk) (some la) +
               calculateAngle (some rh) (some rk) (some ra)) / 2)
      else none
    | _, _, _, _, _, _ => none
  else if joint = "hips" then
    match getPoint kps "left_shoulder", getPoint kps "right_shoulder",
          getPoint kps "left_hip", getPoint kps "right_hip" with
    | some ls, some rs, some lh, some rh =>
      if scoreT ls && scoreT rs && scoreT lh && scoreT rh then
        let midShoulder : Keypoint :=
          ⟨some "mid_shoulder", (ls.x + rs.x) / 2, (ls.y + rs.y) / 2, some 1⟩
        let midHip : Keypoint := ⟨some "mid_hip", (lh.x + rh.x) / 2, (lh.y + rh.y) / 2, some 1⟩
        let midBase : Keypoint := ⟨some "mid_base", midHip.x, midHip.y + 0.5, some 1⟩
        some (calculateAngle (some midShoulder) (some midHip) (some midBase))
      else none
    | _, _, _, _ => none
  else if joint = "shoulders" then
    match getPoint kps "left_shoulder", getPoint kps "right_shoulder", getPoint kps "nose" with
    | some ls, some rs, some neck =>
      if scoreT ls && scoreT rs && scoreT neck then
        some (calculateAngle (some ls) (some neck) (some rs))
      else none
    | _, _, _ => none
  else if joint = "neck" then
    match getPoint kps "nose", getPoint kps "left_shoulder", getPoint kps "right_shoulder" with
    | some nose, some ls, some rs =>
      if scoreT nose && scoreT ls && scoreT rs then
        let midShoulder : Keypoint :=
          ⟨some "mid_shoulder", (ls.x + rs.x) / 2, (ls.y + rs.y) / 2, some 1⟩
        let topHead : Keypoint := ⟨some "top_head", nose.x, nose.y - 0.3, some 1⟩
        some (calculateAngle (some topHead) (some nose) (some midShoulder))
      else none
    | _, _, _ => none
  else if joint = "standing_leg" then
    match getPoint kps "left_hip", getPoint kps "left_knee", getPoint kps "left_ankle" with
    | some hip, some knee, some ankle =>
      if scoreT hip && scoreT knee && scoreT ankle then
        some (calculateAngle (some hip) (some knee) (some ankle))
      else none
    | _, _, _ => none
  else if joint = "raised_knee" then
    match getPoint kps "right_hip", getPoint kps "right_knee", getPoint kps "right_ankle" with
    | some hip, some knee, some ankle =>
      if scoreT hip && scoreT knee && scoreT ankle then
        some (calculateAngle (some hip) (some knee) (some ankle))
      else none
    | _, _, _ => none
  else if joint = "legs" then
    match getPoint kps "left_hip", getPoint kps "left_knee", getPoint kps "left_ankle",
          getPoint kps "right_hip", getPoint kps "right_knee", getPoint kps "right_ankle" with
    | some lh, some lk, some la, some rh, some rk, some ra =>
      if scoreT lh && scoreT lk && scoreT la && scoreT rh && scoreT rk && scoreT ra then
        some ((calculateAngle (some lh) (some lk) (some la) +
               calculateAngle (some rh) (some rk) (some ra)) / 2)
      else none
    | _, _, _, _, _, _ => none
  else if joint = "forearms" then
    match getPoint kps "left_shoulder", getPoint kps "left_elbow", getPoint kps "left_wrist",
          getPoint kps "right_shoulder", getPoint kps "right_elbow", getPoint kps "right_wrist" with
    | some ls, some le, some lw, some rs, some re, some rw =>
      if scoreT ls && scoreT le && scoreT lw && scoreT rs && scoreT re && scoreT rw then
        some ((calculateAngle (some ls) (some le) (some lw) +
               calculateAngle (some rs) (some re) (some rw)) / 2)
      else none
    | _, _, _, _, _, _ => none
  else none

/-- `calculateJointStability`: mean confidence of the keypoints whose name
contains the joint's first underscore-separated component and whose score
exceeds 0.3; 0 when none qualify. -/
noncomputable def calculateJointStability (kps : List Keypoint) (joint : String) : ℝ :=
  let relevant := kps.filter fun kp =>
    (match kp.name with
     | some n => jsIncludes n ((joint.splitOn "_").headI)
     | none => false) && usableScorePD kp
  if relevant.length = 0 then 0
  else (relevant.foldl (fun a kp => a + kp.score.getD 0) 0) / (relevant.length : ℝ)

/-- One entry of the per-joint score map (`JointScore` in poseDetection.ts). -/
structure JointScore where
  score : ℝ
  currentAngle : Option ℝ
  targetAngle : Option ℝ
  tol : Option ℝ

/-- The `generalJoints` table of `calculateJointScores`. -/
def generalJoints : List (String × List String) :=
  [("spine_alignment", ["nose", "left_shoulder", "left_hip"]),
   ("shoulder_alignment", ["left_shoulder", "right_shoulder"]),
   ("hip_alignment", ["left_hip", "right_hip"]),
   ("left_arm", ["left_shoulder", "left_elbow", "left_wrist"]),
   ("right_arm", ["right_shoulder", "right_elbow", "right_wrist"]),
   ("left_leg", ["left_hip", "left_knee", "left_ankle"]),
   ("right_leg", ["right_hip", "right_knee", "right_ankle"])]

/-- One general alignment score of `calculateJointScores`: all listed
points must be found with score above 0.3, then the entry is computed by
the branch matching the joint name. -/
noncomputable def generalJointScore (kps : List Keypoint) (joint : String)
    (points : List String) : Option JointScore :=
  let jointPoints := points.map (getPoint kps)
  if jointPoints.all (fun p => (p.map usableScorePD).getD false) then
    if joint = "spine_alignment" then
      match jointPoints with
      | [some top, some mid, some bottom] =>
        let currentAngle := calculateAngle (some top) (some mid) (some bottom)
        some ⟨max 0 (1 - |180 - currentAngle| / 45), some currentAngle, some 180, some 15⟩
      | _ => none
    else if jsIncludes joint "alignment" then
      match jointPoints with
      | [some l, some r] =>
        let heightDiff := |l.y - r.y|
        let currentAngle := atan2 |r.y - l.y| |r.x - l.x| * (180 / Real.pi)
        some ⟨max 0 (1 - heightDiff), some currentAngle, some 0, some 10⟩
      | _ => none
    else
      match jointPoints with
      | [some s, some m, some e] =>
        let currentAngle := calculateAngle (some s) (some m) (some e)
        let isLeg := jsIncludes joint "leg"
        let targetAngle : ℝ := if isLeg then 170 else 160
        let tol : ℝ := if isLeg then 20 else 30
        some ⟨calculateJointAccuracy currentAngle targetAngle tol,
          some currentAngle, some targetAngle, some tol⟩
      | _ => none
  else none

/-- `calculateJointScores`: the general alignment entries followed by the
pose-specific entries keyed `poseType_joint`. -/
noncomputable def calculateJointScores (kps : List Keypoint) (poseType : String) :
    List (String × JointScore) :=
  let general := generalJoints.foldl
    (fun acc pr =>
      match generalJointScore kps pr.1 pr.2 with
      | some js => acc ++ [(pr.1, js)]
      | none => acc) []
  match POSE_GUIDANCE poseType with
  | none => general
  | some alignment =>
    alignment.foldl
      (fun acc pr =>
        match calculateJointAngle kps pr.1 with
        | some actual =>
          let baseScore := calculateJointAccuracy actual pr.2.1 pr.2.2
          let stability := calculateJointStability kps pr.1
          acc ++ [(poseType ++ "_" ++ pr.1,
            ⟨min 1 (baseScore + stability * 0.1), some actual, some pr.2.1, some pr.2.2⟩)]
        | none => acc) general

/-- The corrective message for one low-scoring joint entry
(`Adjust your … angle` with the rounded angle difference, or the generic
position message when no angles were recorded). -/
noncomputable def jointAdjustMsg (joint : String) (js : JointScore) : Option String :=
  if js.score < 0.6 then
    let jointName := joint.replace "_" " "
    match js.currentAngle, js.targetAngle with
    | some ca, some ta =>
      let difference := |ca - ta|
      let direction := if ta < ca then "decrease" else "increase"
      some ("Adjust your " ++ jointName ++ " angle - try to " ++ direction ++
        " by " ++ toString (round difference) ++ "°")
    | _, _ => some ("Focus on improving your " ++ jointName ++ " position.")
  else none

/-- The `(totalScore, totalWeight)` accumulation over the input keypoints:
only keypoints with truthy name and score contribute, weighted by
`KEYPOINT_WEIGHTS` with a 0.5 default and sigmoid-adjusted scores. -/
noncomputable def baseTotals (kps : List Keypoint) : ℝ × ℝ :=
  kps.foldl
    (fun t kp =>
      if nameT kp && scoreT kp then
        let w := keypointWeight (kp.name.getD "")
        (t.1 + sigmoid10 (kp.score.getD 0) * w, t.2 + w)
      else t)
    (0, 0)

/-- The `(alignmentScore, alignmentCount, stabilityScore)` accumulation of
the pose-guidance loop in `calculatePoseAccuracyWithFeedback`. -/
noncomputable def alignTotals (kps : List Keypoint) (alignment : List (String × ℝ × ℝ)) :
    ℝ × ℕ × ℝ :=
  alignment.foldl
    (fun t pr =>
      match calculateJointAngle kps pr.1 with
      | some actualAngle =>
        let difference := |actualAngle - pr.2.1|
        let angleScore := Real.exp (-0.5 * (difference / pr.2.2) ^ 2)
        let stability := calculateJointStability kps pr.1
        let confidence :=
          ((kps.filter fun kp =>
              match kp.name with
              | some n => jsIncludes n pr.1
              | none => false).foldl
            (fun a kp => a + kp.score.getD 0) 0) / 3
        let jointScore := angleScore * 0.6 + stability * 0.2 + confidence * 0.2
        (t.1 + jointScore, t.2.1 + 1, t.2.2 + stability)
      | none => t)
    (0, 0, 0)

/-- The banding message of `calculatePoseAccuracyWithFeedback`; a NaN
accuracy fails every `>=` comparison and lands in the final band. -/
noncomputable def bandMsg (accuracy : ℝ) : String :=
  if 80 ≤ accuracy then "Excellent form! Your alignment is very precise."
  else if 70 ≤ accuracy then "Great progress! Your form is getting more refined."
  else if 60 ≤ accuracy then "Good effort! Keep focusing on maintaining alignment."
  else if 50 ≤ accuracy then "You\x27re improving! Continue working on the basic form."
  else "Keep practicing! Follow the pose guide for better alignment."

/-- Result record of `calculatePoseAccuracyWithFeedback`; the accuracy is
`none` when the JavaScript computation produces NaN. -/
structure PDResult where
  accuracy : Option ℝ
  feedback : List String
  referenceImage : String

/-- `calculatePoseAccuracyWithFeedback` of poseDetection.ts.  When no
keypoint has both a truthy name and a truthy score — in particular for the
empty keypoint list — `totalWeight` is 0 and the JavaScript expression
`(totalScore / totalWeight) * 100` is `0/0 = NaN`; NaN then propagates
through `Math.min(100, Math.max(40, NaN))`, so the returned accuracy is
NaN (modelled `none`) rather than a number in [40, 100].  NaN also fails
every band comparison, so the final band message is emitted. -/
noncomputable def calculatePoseAccuracyWithFeedback (kps : List Keypoint)
    (poseType ref : String) : PDResult :=
  let bt := baseTotals kps
  let jmsgs := (calculateJointScores kps poseType).filterMap fun pr =>
    jointAdjustMsg pr.1 pr.2
  if bt.2 = 0 then
    ⟨none, "Keep practicing! Follow the pose guide for better alignment." :: jmsgs, ref⟩
  else
    let accuracy0 := bt.1 / bt.2 * 100
    let accuracy1 :=
      match POSE_GUIDANCE poseType with
      | none => accuracy0
      | some alignment =>
        let a3 := alignTotals kps alignment
        let visible := (kps.filter fun kp =>
          match kp.score with
          | some s => decide (0.2 < s)
          | none => false).length
        let confidenceScore := (visible : ℝ) / (kps.length : ℝ) * 100
        if 0 < a3.2.1 then
          let alignmentAverage := a3.1 / (a3.2.1 : ℝ) * 100
          let stabilityAverage := a3.2.2 / (a3.2.1 : ℝ) * 100
          let confidenceWeight := min (confidenceScore / 100) 0.8
          (accuracy0 * 0.3 + alignmentAverage * 0.5 + stabilityAverage * 0.1 +
            confidenceScore * 0.1) * confidenceWeight + accuracy0 * (1 - confidenceWeight)
        else accuracy0
    ⟨some (min 100 (max 40 accuracy1)), bandMsg accuracy1 :: jmsgs, ref⟩

end PoseDet

/-- C1: on the empty keypoint list (and any list with no truthy-scored
named keypoint) `calculatePoseAccuracyWithFeedback` does not return an
accuracy in [40, 100]: `totalWeight` is 0, the JavaScript `0/0` yields
NaN, and `Math.min(100, Math.max(40, NaN))` is still NaN — the code
violates its own `// Minimum 40% to encourage users` clamp. -/
theorem withFeedback_empty_input_accuracy_undefined :
    (PoseDet.calculatePoseAccuracyWithFeedback [] "tree" "").accuracy = none := by
  unfold PoseDet.calculatePoseAccuracyWithFeedback
  dsimp only
  have h : (PoseDet.baseTotals ([] : List Keypoint)).2 = (0 : ℝ) := rfl
  rw [if_pos h]

/-- Concrete points for the C5 counterexample. -/
noncomputable def c5B : Keypoint := ⟨some "left_knee", 1, 0, some 1⟩

noncomputable def c5C : Keypoint := ⟨some "left_ankle", 2, 0, some 1⟩

/-- C5 counterexample: when the first of the three points is missing, the
three-point angle function returns the number 0 — a value also produced by
genuine zero-degree configurations — not a distinct unavailable signal. -/
theorem calculateAngle_missing_point_returns_zero :
    PoseDet.calculateAngle none (some c5B) (some c5C) = 0 := by rfl

/-- C5 amended: `calculateAngle` itself returns 0 (not a distinct
sentinel) whenever any of its three points is missing; it is the
pose-level wrapper `calculateJointAngle` that signals unavailability as
`null`, e.g. when a required named keypoint such as `left_hip` is absent
for the `standing_leg` joint — and neither function applies the 0.3
confidence threshold (the wrapper only requires truthy scores). -/
theorem missing_points_amended :
    (∀ b c : Option Keypoint, PoseDet.calculateAngle none b c = 0) ∧
    (∀ a c : Option Keypoint, PoseDet.calculateAngle a none c = 0) ∧
    (∀ a b : Option Keypoint, PoseDet.calculateAngle a b none = 0) ∧
    (∀ kps : List Keypoint,
      kps.find? (fun kp => kp.name == some "left_hip") = none →
      PoseDet.calculateJointAngle kps "standing_leg" = none) := by
  refine ⟨?_, ?_, ?_, ?_⟩
  · intro b c; cases b <;> cases c <;> rfl
  · intro a c; cases a <;> cases c <;> rfl
  · intro a b; cases a <;> cases b <;> rfl
  · intro kps h
    unfold PoseDet.calculateJointAngle
    rw [if_neg (by decide), if_neg (by decide), if_neg (by decide), if_neg (by decide),
      if_neg (by decide), if_pos rfl]
    unfold PoseDet.getPoint
    rw [h]

/-- C5 amended witness: the empty keypoint list has no `left_hip`, so the
`standing_leg` joint is reported unavailable. -/
theorem missing_points_amended_witness :
    (([] : List Keypoint).find? (fun kp => kp.name == some "left_hip") = none) ∧
    PoseDet.calculateJointAngle [] "standing_leg" = none :=
  ⟨rfl, missing_points_amended.2.2.2 [] rfl⟩

namespace PoseLib

/-- `calculateVariance` of PoseLibrary.tsx: population variance (mean of
squared deviations from the mean). -/
def calculateVariance (numbers : List ℚ) : ℚ :=
  let mean := numbers.sum / (numbers.length : ℚ)
  (numbers.map fun b => (b - mean) ^ 2).sum / (numbers.length : ℚ)

/-- One step of `updateConfidenceHistory` of PoseLibrary.tsx: append the
new score, keep the last 10 (`slice(-confidenceWindowSize)`), and once the
window is full classify stability by comparing the window variance against
a threshold chosen from the window mean (15 above 80, 20 above 60, 25
otherwise).  `none` means the window is not yet full and `isStable` is not
updated this frame. -/
def updateConfidenceHistory (prev : List ℚ) (newScore : ℚ) : List ℚ × Option Bool :=
  let appended := prev ++ [newScore]
  let newHistory := appended.drop (appended.length - 10)
  if newHistory.length = 10 then
    let mean := newHistory.sum / 10
    let stabilityThreshold : ℚ := if 80 < mean then 15 else if 60 < mean then 20 else 25
    (newHistory, some (decide (calculateVariance newHistory < stabilityThreshold)))
  else (newHistory, none)

end PoseLib

/-- The adaptive stability threshold exactly as the specification states
it: 15 when the mean exceeds 80, 20 when it exceeds 60, 25 otherwise. -/
def specStabilityThreshold (mean : ℚ) : ℚ :=
  if 80 < mean then 15 else if 60 < mean then 20 else 25

/-- C7: once the 10-value accuracy window is full, the stability
classifier sets `isStable` to true exactly when the window variance is
strictly below the adaptive threshold determined by the window mean. -/
theorem stability_adaptive_threshold (prev : List ℚ) (s : ℚ) (h : 9 ≤ prev.length) :
    ((PoseLib.updateConfidenceHistory prev s).1).length = 10 ∧
    ((PoseLib.updateConfidenceHistory prev s).2 = some true ↔
      PoseLib.calculateVariance (PoseLib.updateConfidenceHistory prev s).1 <
        specStabilityThreshold (((PoseLib.updateConfidenceHistory prev s).1).sum / 10)) := by
  have hlen : ((prev ++ [s]).drop ((prev ++ [s]).length - 10)).length = 10 := by
    rw [List.length_drop]
    simp only [List.length_append, List.length_singleton]
    omega
  unfold PoseLib.updateConfidenceHistory
  dsimp only
  rw [if_pos hlen]
  exact ⟨hlen, by simp [specStabilityThreshold]⟩

/-- C7 witness: a just-filled window of ten identical scores. -/
theorem stability_adaptive_threshold_witness :
    9 ≤ (List.replicate 9 (70 : ℚ)).length ∧
    (((PoseLib.updateConfidenceHistory (List.replicate 9 (70 : ℚ)) 70).1).length = 10 ∧
     ((PoseLib.updateConfidenceHistory (List.replicate 9 (70 : ℚ)) 70).2 = some true ↔
       PoseLib.calculateVariance
           (PoseLib.updateConfidenceHistory (List.replicate 9 (70 : ℚ)) 70).1 <
         specStabilityThreshold
           (((PoseLib.updateConfidenceHistory (List.replicate 9 (70 : ℚ)) 70).1).sum / 10))) :=
  ⟨by decide, stability_adaptive_threshold _ _ (by decide)⟩

namespace PoseDet

/-- Exponential smoothing weight for history index `j` in a history of
length `n`: `Math.exp(-0.5 * (n - 1 - j))`. -/
noncomputable def smoothWeight (n j : ℕ) : ℝ :=
  Real.exp (-(0.5 : ℝ) * ((n : ℝ) - 1 - (j : ℝ)))

/-- Weighted sum of a coordinate over one historical column. -/
noncomputable def weighSum (n : ℕ) (f : Keypoint → ℝ) : ℕ → List Keypoint → ℝ
  | _, [] => 0
  | j, q :: rest => f q * smoothWeight n j + weighSum n f (j + 1) rest

/-- Total of the smoothing weights over one historical column. -/
noncomputable def weighTotal (n : ℕ) : ℕ → List Keypoint → ℝ
  | _, [] => 0
  | j, _ :: rest => smoothWeight n j + weighTotal n (j + 1) rest

/-- Running maximum of `historical.score || 0`, starting from 0. -/
noncomputable def maxScoreAux : List Keypoint → ℝ → ℝ
  | [], acc => acc
  | q :: rest, acc => maxScoreAux rest (max acc (q.score.getD 0))

/-- One smoothed keypoint: exponentially weighted average of the
historical coordinates at this index, with the maximum historical score. -/
noncomputable def smoothPoint (kp : Keypoint) (hist2D : List Keypoint) : Keypoint :=
  let n := hist2D.length
  ⟨kp.name,
   weighSum n (fun q => q.x) 0 hist2D / weighTotal n 0 hist2D,
   weighSum n (fun q => q.y) 0 hist2D / weighTotal n 0 hist2D,
   some (maxScoreAux hist2D 0)⟩

/-- The historical column at index `i`: `none` when some history entry is
shorter than the current keypoint list (the JavaScript code would then
read `undefined.x` and throw). -/
def gatherAux (i : ℕ) : List (List Keypoint) → Option (List Keypoint)
  | [] => some []
  | h :: rest =>
    match h.get? i with
    | none => none
    | some kp => (gatherAux i rest).map (kp :: ·)

/-- Smooth every keypoint of the current frame against the history. -/
noncomputable def smoothAll (h2 : List (List Keypoint)) :
    ℕ → List Keypoint → Option (List Keypoint)
  | _, [] => some []
  | i, kp :: rest =>
    match gatherAux i h2 with
    | none => none
    | some col => (smoothAll h2 (i + 1) rest).map (smoothPoint kp col :: ·)

/-- `smoothKeypoints` of poseDetection.ts with the module-level
`keypointHistory` made explicit: the state (oldest first, capacity 8,
shifted before pushing) is threaded in and out.  The first component is
the updated history, the second the returned keypoints: the raw input
while the history holds fewer than 3 entries after the push, the
history-weighted average from the third call on. -/
noncomputable def smoothKeypoints (hist : List (List Keypoint)) (kps : List Keypoint) :
    List (List Keypoint) × Option (List Keypoint) :=
  let h1 := if 8 ≤ hist.length then hist.drop 1 else hist
  let h2 := h1 ++ [kps]
  if h2.length < 3 then (h2, some kps)
  else (h2, smoothAll h2 0 kps)

end PoseDet

/-- Keypoints for the C10 computation: two frames at x = 0 followed by one
at x = 1. -/
noncomputable def c10A : Keypoint := ⟨some "nose", 0, 0, some 1⟩

noncomputable def c10B : Keypoint := ⟨some "nose", 1, 0, some 1⟩

/-- With history `[[A],[A]]` the call on `[B]` produces the weighted
average, not the raw input. -/
lemma smooth_hist2_eval :
    (PoseDet.smoothKeypoints [[c10A], [c10A]] [c10B]).2 =
      some [PoseDet.smoothPoint c10B [c10A, c10A, c10B]] := by rfl

/-- The smoothed x-coordinate of the third frame. -/
lemma smooth_x_eval :
    (PoseDet.smoothPoint c10B [c10A, c10A, c10B]).x =
      1 / (Real.exp (-1) + (Real.exp (-0.5) + 1)) := by
  unfold PoseDet.smoothPoint
  dsimp only
  norm_num [PoseDet.weighSum, PoseDet.weighTotal, PoseDet.smoothWeight, c10A, c10B,
    Real.exp_zero]

/-- The smoothed third frame differs from the raw input frame. -/
lemma smoothPoint_third_ne :
    some [PoseDet.smoothPoint c10B [c10A, c10A, c10B]] ≠ some [c10B] := by
  intro h
  have hP := congrArg (fun o : Option (List Keypoint) => (o.getD []).headI.x) h
  simp only [Option.getD_some, List.headI] at hP
  rw [smooth_x_eval] at hP
  have hcx : c10B.x = 1 := rfl
  rw [hcx] at hP
  have hT : (0 : ℝ) < Real.exp (-1) + (Real.exp (-0.5) + 1) := by positivity
  have h2 := (div_eq_iff (ne_of_gt hT)).mp hP
  nlinarith [Real.exp_pos (-1 : ℝ), Real.exp_pos (-0.5 : ℝ)]

/-- C10 counterexample: starting from an empty history, the third call
does not return its raw input — after the third push the history holds 3
entries and the weighted average is already applied (only the first two
calls pass through). -/
theorem third_call_already_smooths :
    (PoseDet.smoothKeypoints
      (PoseDet.smoothKeypoints (PoseDet.smoothKeypoints [] [c10A]).1 [c10A]).1
      [c10B]).2 ≠ some [c10B] := by
  have h1 : (PoseDet.smoothKeypoints [] [c10A]).1 = [[c10A]] := rfl
  have h2 : (PoseDet.smoothKeypoints [[c10A]] [c10A]).1 = [[c10A], [c10A]] := rfl
  rw [h1, h2, smooth_hist2_eval]
  exact smoothPoint_third_ne

/-- C10 amended: `smoothKeypoints` reads and writes the shared
module-level history, so it is not a function of its keypoint argument:
the first and second calls return the raw input, and two calls with the
identical input but different history states return different outputs —
state from one session influences another. -/
theorem smoothing_state_dependence :
    (∀ kps : List Keypoint, (PoseDet.smoothKeypoints [] kps).2 = some kps) ∧
    (∀ k1 k2 : List Keypoint,
      (PoseDet.smoothKeypoints (PoseDet.smoothKeypoints [] k1).1 k2).2 = some k2) ∧
    (∃ (h1 h2 : List (List Keypoint)) (kps : List Keypoint),
      (PoseDet.smoothKeypoints h1 kps).2 ≠ (PoseDet.smoothKeypoints h2 kps).2) := by
  refine ⟨fun kps => rfl, fun k1 k2 => rfl, ⟨[], [[c10A], [c10A]], [c10B], ?_⟩⟩
  rw [smooth_hist2_eval]
  exact fun h => smoothPoint_third_ne (h.symm)
